import Mathlib

/-!
A verification development for the `voidint/null` repository: nullable
scalar wrappers in two families, package `null` (strict-null: zero is a
valid value) and package `zero` (zero-as-null: zero collapses to null on
most construction/decode paths).  The Go structs embed `sql.NullByte` /
`sql.NullInt16`; here the two fields (`Byte`/`Int16` and `Valid`) are
flattened into the wrapper structure.  Go's `uint8` is modelled as `Nat`
(conversions take `% 256`), `int16`/`int64` as `Int` with explicit
two's-complement narrowing where the source narrows.  JSON/text data is
modelled as `String`; the pointer argument of `FromPtr` as `Option`.
Functions with a pointer receiver that mutate in place are modelled by
state passing: they take the current wrapper and return the new wrapper
together with the Go error value (`Option DecodeError`).
-/

/-- Error tags for the wrapped `fmt.Errorf` errors produced by the decoders:
`invalidType` is the "JSON input is invalid type (need int or string)" error,
`invalidNumericString` the "couldn't convert string to int" error,
`stringUnmarshal` the "couldn't unmarshal number string" error,
`invalidJSON` the final "couldn't unmarshal JSON" error, and
`invalidNumericText` the "couldn't unmarshal text" error of `UnmarshalText`. -/
inductive DecodeError where
  | invalidType
  | invalidNumericString
  | stringUnmarshal
  | invalidJSON
  | invalidNumericText
deriving DecidableEq

/-- Decimal digit value of a character, `none` for non-digits. -/
def digitVal (c : Char) : Option Nat :=
  if '0' ≤ c ∧ c ≤ '9' then some (c.toNat - '0'.toNat) else none

/-- Fold a list of decimal digit characters into a natural number;
`none` if any character is not a digit. -/
def parseDigits : List Char → Nat → Option Nat
  | [], acc => some acc
  | c :: cs, acc =>
    match digitVal c with
    | some d => parseDigits cs (10 * acc + d)
    | none => none

/-- Model of Go `strconv.ParseUint(s, 10, bitSize)`: base-10 digits only
(no sign permitted), value must fit in `bitSize` bits; `none` models a
non-nil error (syntax error or range error). -/
def parseUint (s : String) (bitSize : Nat) : Option Nat :=
  match s.data with
  | [] => none
  | l =>
    match parseDigits l 0 with
    | some n => if n < 2 ^ bitSize then some n else none
    | none => none

/-- Model of Go `strconv.ParseInt(s, 10, bitSize)`: optional leading sign,
then base-10 digits; the value must lie in
`[-2^(bitSize-1), 2^(bitSize-1) - 1]`; `none` models a non-nil error. -/
def parseInt (s : String) (bitSize : Nat) : Option Int :=
  match s.data with
  | [] => none
  | c :: rest =>
    let signed : Bool × List Char :=
      if c = '-' then (true, rest)
      else if c = '+' then (false, rest) else (false, c :: rest)
    match signed.2 with
    | [] => none
    | l =>
      match parseDigits l 0 with
      | some m =>
        if signed.1 then
          if m ≤ 2 ^ (bitSize - 1) then some (-(m : Int)) else none
        else
          if m < 2 ^ (bitSize - 1) then some (m : Int) else none
      | none => none

/-- Go conversion `int16(n)` applied to an `int64` value: two's-complement
narrowing, i.e. reduction modulo `2^16` into `[-2^15, 2^15)`. -/
def int16ofInt (n : Int) : Int := (n + 32768) % 65536 - 32768

/-- Go conversion `uint8(n)`: reduction modulo `2^8`. -/
def uint8ofNat (n : Nat) : Nat := n % 256

/-- Model of Go `strconv.FormatInt(int64(n), 10)`: the base-10 decimal
representation, with a leading minus sign for negative values. -/
def formatInt (n : Int) : String := toString n

def openBrace : Char := Char.ofNat 123

def openBracket : Char := '['

def dquote : Char := '"'

/-- Whether `s` is a JSON integer numeric token: optional minus sign, then
either `0` or a nonzero digit followed by digits.  (The claims only
exercise integer-valued numeric tokens, so fraction/exponent forms are not
modelled.) -/
def isJsonIntToken (s : String) : Bool :=
  let digitsPart : List Char :=
    match s.data with
    | '-' :: rest => rest
    | l => l
  match digitsPart with
  | [] => false
  | [c] => (digitVal c).isSome
  | c :: rest => ('1' ≤ c && c ≤ '9') && rest.all fun d => (digitVal d).isSome

/-- The integer value of a JSON integer numeric token. -/
def intTokenVal (s : String) : Int :=
  match s.data with
  | '-' :: rest => -((parseDigits rest 0).getD 0 : Int)
  | l => ((parseDigits l 0).getD 0 : Int)

/-- Whether `s` is a JSON string token: a double quote, interior characters
(no interior quote or backslash escapes are modelled; the claims only use
plain numeric strings), and a closing double quote. -/
def isJsonStrToken (s : String) : Bool :=
  match s.data with
  | [] => false
  | c :: rest =>
    c == dquote && !rest.isEmpty && rest.getLast? == some dquote &&
      rest.dropLast.all fun ch => ch != dquote && ch != '\\'

/-- The contents of a JSON string token, with the surrounding quotes removed. -/
def jsonStrContent (s : String) : String :=
  String.mk s.data.tail.dropLast

/-- Result of `encoding/json.Unmarshal` into a Go integer field:
success with the decoded value, an `*json.UnmarshalTypeError` carrying its
`Value` description (`"string"`, `"bool"`, `"object"`, `"array"`, or
`"number"` for a numeric token that overflows the field), or a syntax
error (any other error, for which `errors.As` with a type error fails). -/
inductive JsonPrimResult where
  | ok (n : Int)
  | typeError (value : String)
  | syntaxError
deriving DecidableEq

/-- Model of `encoding/json.Unmarshal(data, &field)` for an integer field
whose Go type admits exactly the values in `[lo, hi]`: classifies the data
by its leading token (object/array inputs are taken to be well-formed, as
in the claims' inputs) and range-checks numeric tokens. -/
def jsonUnmarshalInt (data : String) (lo hi : Int) : JsonPrimResult :=
  if isJsonIntToken data then
    let n := intTokenVal data
    if lo ≤ n && n ≤ hi then .ok n else .typeError "number"
  else if isJsonStrToken data then .typeError "string"
  else if data = "true" || data = "false" then .typeError "bool"
  else
    match data.data with
    | c :: _ =>
      if c = openBrace then .typeError "object"
      else if c = openBracket then .typeError "array"
      else .syntaxError
    | [] => .syntaxError

namespace null

/-- Uint8 is a nullable uint8 (fields of the embedded `sql.NullByte`).
It does not consider zero values to be null. -/
structure Uint8 where
  Byte : Nat
  Valid : Bool
deriving DecidableEq

/-- NewUint8 creates a new Uint8. -/
def NewUint8 (i : Nat) (valid : Bool) : Uint8 := ⟨i, valid⟩

/-- Uint8From creates a new Uint8 that will always be valid. -/
def Uint8From (i : Nat) : Uint8 := NewUint8 i true

/-- Uint8FromPtr creates a new Uint8 that will be null if i is nil. -/
def Uint8FromPtr : Option Nat → Uint8
  | none => NewUint8 0 false
  | some i => NewUint8 i true

/-- ValueOrZero returns the inner value if valid, otherwise zero. -/
def Uint8.ValueOrZero (i : Uint8) : Nat :=
  if !i.Valid then 0 else i.Byte

/-- UnmarshalJSON: supports number, string, and null input; 0 is not
considered null.  State passing models the pointer receiver. -/
def Uint8.UnmarshalJSON (i : Uint8) (data : String) : Uint8 × Option DecodeError :=
  if data = "null" then ({ i with Valid := false }, none)
  else
    match jsonUnmarshalInt data 0 255 with
    | .ok n => ({ Byte := n.toNat, Valid := true }, none)
    | .typeError v =>
      if v != "string" then (i, some .invalidType)
      else
        match parseUint (jsonStrContent data) 8 with
        | some n => ({ Byte := uint8ofNat n, Valid := true }, none)
        | none => (i, some .invalidNumericString)
    | .syntaxError => (i, some .invalidJSON)

/-- UnmarshalText: null if the input is blank or "null", otherwise
`strconv.ParseUint(text, 10, 8)`. -/
def Uint8.UnmarshalText (i : Uint8) (text : String) : Uint8 × Option DecodeError :=
  if text = "" || text = "null" then ({ i with Valid := false }, none)
  else
    match parseUint text 8 with
    | some n => ({ Byte := uint8ofNat n, Valid := true }, none)
    | none => (i, some .invalidNumericText)

/-- MarshalJSON: encodes null if this Uint8 is null. -/
def Uint8.MarshalJSON (i : Uint8) : String × Option DecodeError :=
  if !i.Valid then ("null", none)
  else (formatInt (i.Byte : Int), none)

/-- MarshalText: encodes a blank string if this Uint8 is null. -/
def Uint8.MarshalText (i : Uint8) : String × Option DecodeError :=
  if !i.Valid then ("", none)
  else (formatInt (i.Byte : Int), none)

/-- SetValid changes this Uint8's value and also sets it to be non-null. -/
def Uint8.SetValid (i : Uint8) (n : Nat) : Uint8 :=
  { i with Byte := n, Valid := true }

/-- Ptr returns a pointer to this Uint8's value, or nil if this Uint8 is null. -/
def Uint8.Ptr (i : Uint8) : Option Nat :=
  if !i.Valid then none else some i.Byte

/-- IsZero returns true for invalid Uint8s; a non-null Uint8 with a 0 value
is not considered zero. -/
def Uint8.IsZero (i : Uint8) : Bool := !i.Valid

/-- Equal returns true if both have the same value or are both null. -/
def Uint8.Equal (i other : Uint8) : Bool :=
  i.Valid == other.Valid && (!i.Valid || i.Byte == other.Byte)

end null

namespace zero

/-- Int16 is a nullable int16 (fields of the embedded `sql.NullInt16`).
JSON marshals to zero if null. -/
structure Int16 where
  Int16 : Int
  Valid : Bool
deriving DecidableEq

/-- NewInt16 creates a new Int16. -/
def NewInt16 (i : Int) (valid : Bool) : zero.Int16 := ⟨i, valid⟩

/-- Int16From creates a new Int16 that will be null if zero. -/
def Int16From (i : Int) : zero.Int16 := NewInt16 i (i != 0)

/-- Int16FromPtr creates a new Int16 that will be null if i is nil. -/
def Int16FromPtr : Option Int → zero.Int16
  | none => NewInt16 0 false
  | some i => NewInt16 i true

/-- ValueOrZero returns the inner value if valid, otherwise zero. -/
def Int16.ValueOrZero (i : zero.Int16) : Int :=
  if !i.Valid then 0 else i.Int16

/-- UnmarshalJSON: supports number and null input; 0 is considered null.
State passing models the pointer receiver. -/
def Int16.UnmarshalJSON (i : zero.Int16) (data : String) : zero.Int16 × Option DecodeError :=
  if data = "null" then ({ i with Valid := false }, none)
  else
    match jsonUnmarshalInt data (-32768) 32767 with
    | .ok n => ({ Int16 := n, Valid := n != 0 }, none)
    | .typeError v =>
      if v != "string" then (i, some .invalidType)
      else
        match parseInt (jsonStrContent data) 16 with
        | some n => ({ Int16 := int16ofInt n, Valid := n != 0 }, none)
        | none => (i, some .invalidNumericString)
    | .syntaxError => (i, some .invalidJSON)

/-- UnmarshalText: null if the input is blank or "null", otherwise
`strconv.ParseInt(text, 10, 64)` narrowed by `int16(n)` with no overflow
check; validity is recomputed from the narrowed field. -/
def Int16.UnmarshalText (i : zero.Int16) (text : String) : zero.Int16 × Option DecodeError :=
  if text = "" || text = "null" then ({ i with Valid := false }, none)
  else
    match parseInt text 64 with
    | some n =>
      ({ Int16 := int16ofInt n, Valid := int16ofInt n != 0 }, none)
    | none => (i, some .invalidNumericText)

/-- MarshalJSON: encodes 0 if this Int16 is null. -/
def Int16.MarshalJSON (i : zero.Int16) : String × Option DecodeError :=
  (formatInt (if !i.Valid then 0 else i.Int16), none)

/-- MarshalText: encodes a zero if this Int16 is null. -/
def Int16.MarshalText (i : zero.Int16) : String × Option DecodeError :=
  (formatInt (if !i.Valid then 0 else i.Int16), none)

/-- SetValid changes this Int16's value and also sets it to be non-null. -/
def Int16.SetValid (i : zero.Int16) (n : Int) : zero.Int16 :=
  { i with Int16 := n, Valid := true }

/-- Ptr returns a pointer to this Int16's value, or nil if this Int16 is null. -/
def Int16.Ptr (i : zero.Int16) : Option Int :=
  if !i.Valid then none else some i.Int16

/-- IsZero returns true for null or zero Int16s. -/
def Int16.IsZero (i : zero.Int16) : Bool :=
  !i.Valid || i.Int16 == 0

/-- Equal returns true if both have the same value or are both either null
or zero. -/
def Int16.Equal (i other : zero.Int16) : Bool :=
  i.ValueOrZero == other.ValueOrZero

/-- Uint8 is a nullable uint8 (fields of the embedded `sql.NullByte`).
JSON marshals to zero if null. -/
structure Uint8 where
  Byte : Nat
  Valid : Bool
deriving DecidableEq

/-- NewUint8 creates a new Uint8. -/
def NewUint8 (i : Nat) (valid : Bool) : Uint8 := ⟨i, valid⟩

/-- Uint8From creates a new Uint8 that will be null if zero. -/
def Uint8From (i : Nat) : Uint8 := NewUint8 i (i != 0)

/-- Uint8FromPtr creates a new Uint8 that will be null if i is nil. -/
def Uint8FromPtr : Option Nat → Uint8
  | none => NewUint8 0 false
  | some i => NewUint8 i true

/-- ValueOrZero returns the inner value if valid, otherwise zero. -/
def Uint8.ValueOrZero (i : Uint8) : Nat :=
  if !i.Valid then 0 else i.Byte

/-- UnmarshalJSON: supports number and null input; 0 is considered null.
In the string-fallback branch validity is computed from the parsed
(pre-narrowing) value `n`. -/
def Uint8.UnmarshalJSON (i : Uint8) (data : String) : Uint8 × Option DecodeError :=
  if data = "null" then ({ i with Valid := false }, none)
  else
    match jsonUnmarshalInt data 0 255 with
    | .ok n => ({ Byte := n.toNat, Valid := n.toNat != 0 }, none)
    | .typeError v =>
      if v != "string" then (i, some .invalidType)
      else
        match parseUint (jsonStrContent data) 8 with
        | some n => ({ Byte := uint8ofNat n, Valid := n != 0 }, none)
        | none => (i, some .invalidNumericString)
    | .syntaxError => (i, some .invalidJSON)

/-- UnmarshalText: null if the input is blank or "null", otherwise
`strconv.ParseUint(text, 10, 8)` (overflow-checked at width 8); validity
is recomputed from the narrowed field. -/
def Uint8.UnmarshalText (i : Uint8) (text : String) : Uint8 × Option DecodeError :=
  if text = "" || text = "null" then ({ i with Valid := false }, none)
  else
    match parseUint text 8 with
    | some n =>
      ({ Byte := uint8ofNat n, Valid := uint8ofNat n != 0 }, none)
    | none => (i, some .invalidNumericText)

/-- MarshalJSON: encodes 0 if this Uint8 is null. -/
def Uint8.MarshalJSON (i : Uint8) : String × Option DecodeError :=
  (formatInt (if !i.Valid then 0 else (i.Byte : Int)), none)

/-- MarshalText: encodes a zero if this Uint8 is null. -/
def Uint8.MarshalText (i : Uint8) : String × Option DecodeError :=
  (formatInt (if !i.Valid then 0 else (i.Byte : Int)), none)

/-- SetValid changes this Uint8's value and also sets it to be non-null. -/
def Uint8.SetValid (i : Uint8) (n : Nat) : Uint8 :=
  { i with Byte := n, Valid := true }

/-- Ptr returns a pointer to this Uint8's value, or nil if this Uint8 is null. -/
def Uint8.Ptr (i : Uint8) : Option Nat :=
  if !i.Valid then none else some i.Byte

/-- IsZero returns true for null or zero Uint8s. -/
def Uint8.IsZero (i : Uint8) : Bool :=
  !i.Valid || i.Byte == 0

/-- Equal returns true if both have the same value or are both either null
or zero. -/
def Uint8.Equal (i other : Uint8) : Bool :=
  i.ValueOrZero == other.ValueOrZero

end zero

/-- C1 counterexample: at the invalid wrapper with stored value 7, the
strict-null family marshals JSON "null" (not "0") and text "" (not "0"),
while the zero-as-null family marshals JSON "0" (not "null") and text "0"
(not the empty string) — the claim has the two families swapped. -/
theorem C1_counterexample :
    (null.NewUint8 7 false).MarshalJSON.1 = "null" ∧
    (null.NewUint8 7 false).MarshalJSON.1 ≠ "0" ∧
    (null.NewUint8 7 false).MarshalText.1 = "" ∧
    (null.NewUint8 7 false).MarshalText.1 ≠ "0" ∧
    (zero.NewInt16 7 false).MarshalJSON.1 = "0" ∧
    (zero.NewInt16 7 false).MarshalJSON.1 ≠ "null" ∧
    (zero.NewInt16 7 false).MarshalText.1 = "0" ∧
    (zero.NewInt16 7 false).MarshalText.1 ≠ "" := by
  decide

/-- C1 amended: for every invalid wrapper the strict-null family's
MarshalJSON emits "null" and its MarshalText the empty string, while the
zero-as-null family's MarshalJSON and MarshalText both emit "0"; for every
valid wrapper both families emit the base-10 decimal of the stored value,
and no marshaler ever returns an error. -/
theorem C1_amended_marshal (b : Nat) (v : Int) :
    (null.NewUint8 b false).MarshalJSON = ("null", none) ∧
    (null.NewUint8 b false).MarshalText = ("", none) ∧
    (zero.NewInt16 v false).MarshalJSON = ("0", none) ∧
    (zero.NewInt16 v false).MarshalText = ("0", none) ∧
    (zero.NewUint8 b false).MarshalJSON = ("0", none) ∧
    (zero.NewUint8 b false).MarshalText = ("0", none) ∧
    (null.NewUint8 b true).MarshalJSON = (formatInt (b : Int), none) ∧
    (null.NewUint8 b true).MarshalText = (formatInt (b : Int), none) ∧
    (zero.NewInt16 v true).MarshalJSON = (formatInt v, none) ∧
    (zero.NewInt16 v true).MarshalText = (formatInt v, none) ∧
    (zero.NewUint8 b true).MarshalJSON = (formatInt (b : Int), none) ∧
    (zero.NewUint8 b true).MarshalText = (formatInt (b : Int), none) := by
  exact ⟨rfl, rfl, rfl, rfl, rfl, rfl, rfl, rfl, rfl, rfl, rfl, rfl⟩

/-- C2 counterexample: the strict-null pair New(0,true) / New(0,false)
compares not-Equal, while the zero-as-null equivalent pairs compare
Equal — the claim assigns each family the other family's Equal. -/
theorem C2_counterexample :
    (null.NewUint8 0 true).Equal (null.NewUint8 0 false) = false ∧
    (zero.NewUint8 0 true).Equal (zero.NewUint8 0 false) = true ∧
    (zero.NewInt16 0 true).Equal (zero.NewInt16 0 false) = true := by
  decide

/-- C2 amended: strict-null Equal holds iff the valid flags agree and the
stored values agree whenever valid (so New(0,true) and New(0,false) are
not Equal), while zero-as-null Equal is equality of ValueOrZero results
(so the equivalent zero pair is Equal). -/
theorem C2_amended_equality :
    (∀ a b : null.Uint8,
      a.Equal b = true ↔ a.Valid = b.Valid ∧ (a.Valid = false ∨ a.Byte = b.Byte)) ∧
    (∀ a b : zero.Int16, a.Equal b = true ↔ a.ValueOrZero = b.ValueOrZero) ∧
    (∀ a b : zero.Uint8, a.Equal b = true ↔ a.ValueOrZero = b.ValueOrZero) := by
  refine ⟨fun a b => ?_, fun a b => ?_, fun a b => ?_⟩
  · cases ha : a.Valid <;> cases hb : b.Valid <;>
      simp [null.Uint8.Equal, ha, hb]
  · simp [zero.Int16.Equal]
  · simp [zero.Uint8.Equal]

/-- C3 counterexample: the strict-null valid zero wrapper From(0) has
IsZero false (the claim says true), and a zero-as-null wrapper after
SetValid(w, 0) has IsZero true (the claim says false). -/
theorem C3_counterexample :
    (null.Uint8From 0).IsZero = false ∧
    ((zero.NewUint8 3 true).SetValid 0).IsZero = true ∧
    ((zero.NewInt16 3 true).SetValid 0).IsZero = true := by
  decide

/-- C3 amended: the strict-null family's IsZero is true exactly when the
wrapper is invalid (the numeric value is not consulted, so From(0) has
IsZero false), while the zero-as-null family's IsZero is true exactly when
the wrapper is invalid or its stored value is zero (so after SetValid(w,0)
IsZero is true). -/
theorem C3_amended_is_zero :
    (∀ w : null.Uint8, w.IsZero = true ↔ w.Valid = false) ∧
    (∀ w : zero.Int16, w.IsZero = true ↔ w.Valid = false ∨ w.Int16 = 0) ∧
    (∀ w : zero.Uint8, w.IsZero = true ↔ w.Valid = false ∨ w.Byte = 0) := by
  refine ⟨fun w => ?_, fun w => ?_, fun w => ?_⟩
  · simp [null.Uint8.IsZero]
  · simp [zero.Int16.IsZero]
  · simp [zero.Uint8.IsZero]

/-- C4 counterexample: the zero-as-null FromPtr of a non-nil pointer to 0
yields a wrapper with valid true, not false — no zero collapse happens on
the FromPtr path. -/
theorem C4_counterexample :
    (zero.Int16FromPtr (some 0)).Valid = true ∧
    (zero.Uint8FromPtr (some 0)).Valid = true := by
  decide

/-- C4 amended: for every non-nil pointer p, both families' FromPtr(p)
produce New(*p, true) — the zero-as-null family does not apply From
semantics and does not collapse zero to invalid — and for a nil pointer
both families produce New(0, false). -/
theorem C4_amended_from_ptr :
    (∀ v : Int, zero.Int16FromPtr (some v) = zero.NewInt16 v true) ∧
    (∀ v : Nat, zero.Uint8FromPtr (some v) = zero.NewUint8 v true) ∧
    (∀ v : Nat, null.Uint8FromPtr (some v) = null.NewUint8 v true) ∧
    zero.Int16FromPtr none = zero.NewInt16 0 false ∧
    zero.Uint8FromPtr none = zero.NewUint8 0 false ∧
    null.Uint8FromPtr none = null.NewUint8 0 false := by
  exact ⟨fun v => rfl, fun v => rfl, fun v => rfl, rfl, rfl, rfl⟩

/-- C5: for every stored value and every starting wrapper state, marshaling
New(v, false) to JSON and unmarshaling the produced bytes with the same
type's UnmarshalJSON succeeds and yields an invalid wrapper, in all three
wrapper types. -/
theorem C5_roundtrip_invalid :
    (∀ (v : Nat) (j : null.Uint8),
      (j.UnmarshalJSON (null.NewUint8 v false).MarshalJSON.1).2 = none ∧
      (j.UnmarshalJSON (null.NewUint8 v false).MarshalJSON.1).1.Valid = false) ∧
    (∀ (v : Int) (j : zero.Int16),
      (j.UnmarshalJSON (zero.NewInt16 v false).MarshalJSON.1).2 = none ∧
      (j.UnmarshalJSON (zero.NewInt16 v false).MarshalJSON.1).1.Valid = false) ∧
    (∀ (v : Nat) (j : zero.Uint8),
      (j.UnmarshalJSON (zero.NewUint8 v false).MarshalJSON.1).2 = none ∧
      (j.UnmarshalJSON (zero.NewUint8 v false).MarshalJSON.1).1.Valid = false) := by
  exact ⟨fun v j => ⟨rfl, rfl⟩, fun v j => ⟨rfl, rfl⟩, fun v j => ⟨rfl, rfl⟩⟩

/-- C6: from every starting state, zero-as-null Uint8 UnmarshalJSON of the
quoted string "42" succeeds with value 42 and valid true, and of the
quoted string "0" succeeds with value 0 and valid false. -/
theorem C6_zero_uint8_string_decode (j : zero.Uint8) :
    j.UnmarshalJSON "\"42\"" = (zero.NewUint8 42 true, none) ∧
    j.UnmarshalJSON "\"0\"" = (zero.NewUint8 0 false, none) :=
  ⟨rfl, rfl⟩

/-- C7: zero-as-null Int16 UnmarshalText parses at 64-bit precision and
narrows with int16(n) without an overflow check, so every input that
ParseInt accepts at bit size 64 succeeds with the value reduced modulo
2^16; the width-8 decoders parse with ParseUint at bit size 8, so "300"
fails with the text-decode error in both uint8 types. -/
theorem C7_overflow_divergence :
    (∀ (j : zero.Int16) (s : String) (n : Int),
      s ≠ "" → s ≠ "null" → parseInt s 64 = some n →
      j.UnmarshalText s =
        (zero.NewInt16 (int16ofInt n) (int16ofInt n != 0), none)) ∧
    (∀ j : null.Uint8,
      j.UnmarshalText "300" = (j, some DecodeError.invalidNumericText)) ∧
    (∀ j : zero.Uint8,
      j.UnmarshalText "300" = (j, some DecodeError.invalidNumericText)) := by
  refine ⟨?_, fun j => rfl, fun j => rfl⟩
  intro j s n h1 h2 h3
  unfold zero.Int16.UnmarshalText
  rw [if_neg (by simp [h1, h2]), h3]
  rfl

/-- C7 witness: instantiating at the input "40000" (in int64 range, outside
int16 range): the hypotheses hold and the decode succeeds with
40000 mod 2^16 = -25536. -/
theorem C7_witness :
    (("40000" : String) ≠ "" ∧ ("40000" : String) ≠ "null" ∧
      parseInt "40000" 64 = some 40000) ∧
    zero.Int16.UnmarshalText (zero.NewInt16 0 false) "40000" =
      (zero.NewInt16 (-25536) true, none) := by
  refine ⟨⟨by decide, by decide, by decide⟩, ?_⟩
  rw [C7_overflow_divergence.1 (zero.NewInt16 0 false) "40000" 40000 (by decide) (by decide)
    (by decide)]
  decide

/-- C8: for every starting state of each of the three wrapper types,
UnmarshalJSON of the boolean tokens, of an object, or of an array returns
the InvalidType-tagged error and leaves the state unchanged. -/
theorem C8_invalid_type_shape :
    ∀ (a : null.Uint8) (b : zero.Int16) (c : zero.Uint8) (data : String),
      (data = "true" ∨ data = "false" ∨ data = "\x7b\x7d" ∨ data = "[]") →
      a.UnmarshalJSON data = (a, some DecodeError.invalidType) ∧
      b.UnmarshalJSON data = (b, some DecodeError.invalidType) ∧
      c.UnmarshalJSON data = (c, some DecodeError.invalidType) := by
  rintro a b c data (rfl | rfl | rfl | rfl) <;> exact ⟨rfl, rfl, rfl⟩

/-- C8 witness: at the boolean token "true" the hypothesis holds and all
three decoders report the InvalidType error. -/
theorem C8_witness :
    (("true" : String) = "true" ∨ ("true" : String) = "false" ∨
      ("true" : String) = "\x7b\x7d" ∨ ("true" : String) = "[]") ∧
    null.Uint8.UnmarshalJSON (null.NewUint8 3 true) "true" =
      (null.NewUint8 3 true, some DecodeError.invalidType) ∧
    zero.Int16.UnmarshalJSON (zero.NewInt16 3 true) "true" =
      (zero.NewInt16 3 true, some DecodeError.invalidType) ∧
    zero.Uint8.UnmarshalJSON (zero.NewUint8 3 true) "true" =
      (zero.NewUint8 3 true, some DecodeError.invalidType) := by
  refine ⟨Or.inl rfl, ?_⟩
  exact C8_invalid_type_shape (null.NewUint8 3 true) (zero.NewInt16 3 true)
    (zero.NewUint8 3 true) "true" (Or.inl rfl)

/-- C9: for every zero-as-null wrapper state, MarshalJSON and MarshalText
return byte-for-byte identical output — the decimal of the stored value
when valid and "0" otherwise — and the error component is always nil. -/
theorem C9_zero_marshal_agree :
    (∀ i : zero.Int16, i.MarshalJSON = i.MarshalText ∧ i.MarshalJSON.2 = none) ∧
    (∀ i : zero.Uint8, i.MarshalJSON = i.MarshalText ∧ i.MarshalJSON.2 = none) ∧
    (∀ w : Int, (zero.NewInt16 w true).MarshalJSON.1 = formatInt w) ∧
    (∀ w : Int, (zero.NewInt16 w false).MarshalJSON.1 = "0") ∧
    (∀ v : Nat, (zero.NewUint8 v true).MarshalJSON.1 = formatInt (v : Int)) ∧
    (∀ v : Nat, (zero.NewUint8 v false).MarshalJSON.1 = "0") := by
  exact ⟨fun i => ⟨rfl, rfl⟩, fun i => ⟨rfl, rfl⟩, fun w => rfl, fun w => rfl,
    fun v => rfl, fun v => rfl⟩

/-- C10: for all three wrapper types, whenever UnmarshalText returns a
non-nil error the wrapper state it returns is the state it started from —
a failed flat-text decode mutates nothing. -/
theorem C10_text_error_no_mutation :
    ∀ (a : null.Uint8) (b : zero.Int16) (c : zero.Uint8) (s : String),
      ((a.UnmarshalText s).2 ≠ none → (a.UnmarshalText s).1 = a) ∧
      ((b.UnmarshalText s).2 ≠ none → (b.UnmarshalText s).1 = b) ∧
      ((c.UnmarshalText s).2 ≠ none → (c.UnmarshalText s).1 = c) := by
  intro a b c s
  refine ⟨?_, ?_, ?_⟩
  · show (a.UnmarshalText s).2 ≠ none → (a.UnmarshalText s).1 = a
    unfold null.Uint8.UnmarshalText
    split
    · intro h; exact absurd rfl h
    · split
      · intro h; exact absurd rfl h
      · intro _; rfl
  · show (b.UnmarshalText s).2 ≠ none → (b.UnmarshalText s).1 = b
    unfold zero.Int16.UnmarshalText
    split
    · intro h; exact absurd rfl h
    · split
      · intro h; exact absurd rfl h
      · intro _; rfl
  · show (c.UnmarshalText s).2 ≠ none → (c.UnmarshalText s).1 = c
    unfold zero.Uint8.UnmarshalText
    split
    · intro h; exact absurd rfl h
    · split
      · intro h; exact absurd rfl h
      · intro _; rfl

/-- C10 witness: at the non-numeric input "abc" each decoder errors and
each wrapper state is returned unchanged. -/
theorem C10_witness :
    ((null.NewUint8 7 true).UnmarshalText "abc").2 ≠ none ∧
    ((null.NewUint8 7 true).UnmarshalText "abc").1 = null.NewUint8 7 true ∧
    ((zero.NewInt16 7 true).UnmarshalText "abc").2 ≠ none ∧
    ((zero.NewInt16 7 true).UnmarshalText "abc").1 = zero.NewInt16 7 true ∧
    ((zero.NewUint8 7 true).UnmarshalText "abc").2 ≠ none ∧
    ((zero.NewUint8 7 true).UnmarshalText "abc").1 = zero.NewUint8 7 true := by
  have h := C10_text_error_no_mutation (null.NewUint8 7 true) (zero.NewInt16 7 true)
    (zero.NewUint8 7 true) "abc"
  exact ⟨by decide, h.1 (by decide), by decide, h.2.1 (by decide), by decide,
    h.2.2 (by decide)⟩
